import Mathlib

/-!
Verification development for the natural-language-to-SQL query path of the
Gen-AI-SQL-Chatbot repository (src/app.py).

The embedding is a shallow one over `List Char`: Python strings become char
lists, the regular expressions used by `generate_sql_from_pattern` become
explicit decidable matchers, fallible external calls (the Gemini API, the
database engine) become `Except` values passed in as parameters, and the
Flask endpoint `api_database_query` becomes a pure function from its inputs
to a response value.

Modelling conventions (all ASCII-exact for the inputs that occur):
  - Python `str.lower` / `str.upper` are `Char.toLower` / `Char.toUpper`
    mapped over the characters (ASCII case mapping, as in the source data).
  - Python `\w` (word character) is alphanumeric-or-underscore.
  - Python `\s` is the ASCII whitespace set.
  - `re.search` over the specific patterns of app.py is compiled, pattern by
    pattern, into a first-match scanner over token sequences; every pattern
    in app.py has the shape `\bW1\b.*\bW2(\b)?...` where each Wi is an
    alternation of fixed all-word-character literals, so searching for the
    earliest occurrence of each token left to right is exact (a later match
    of a token can only shrink the remaining search space, and a match
    cannot start strictly inside an earlier boundary-delimited match
    because the preceding character would be a word character).
-/

set_option maxRecDepth 16384

namespace SqlChatbot

/-- Python `\w`: alphanumeric or underscore (ASCII). -/
def isWordChar (c : Char) : Bool := c.isAlphanum || c == '_'

/-- Python `\s`: ASCII whitespace characters. -/
def isSpaceChar (c : Char) : Bool :=
  c == ' ' || c == '\t' || c == '\n' || c == '\r' || c == '\x0b' || c == '\x0c'

/-- Lower-case every character (Python `str.lower` on ASCII data). -/
def lowerL (s : List Char) : List Char := s.map Char.toLower

/-- Upper-case every character (Python `str.upper` on ASCII data). -/
def upperL (s : List Char) : List Char := s.map Char.toUpper

/-- Python `str.strip()`: drop whitespace from both ends. -/
def trimL (s : List Char) : List Char :=
  ((s.dropWhile isSpaceChar).reverse.dropWhile isSpaceChar).reverse

/-- `needle` occurs at the head of `hay`. -/
def startsWithL : List Char → List Char → Bool
  | [], _ => true
  | _ :: _, [] => false
  | c :: cs, d :: ds => c == d && startsWithL cs ds

/-- Python `needle in hay`: substring containment. -/
def containsL : List Char → List Char → Bool
  | [], needle => needle.isEmpty
  | c :: cs, needle => startsWithL needle (c :: cs) || containsL cs needle

/-- Match the literal `lit` at the head of `s`, returning the remainder. -/
def litTake : List Char → List Char → Option (List Char)
  | [], s => some s
  | _ :: _, [] => none
  | c :: cs, d :: ds => if c == d then litTake cs ds else none

/-- One token of a compiled pattern: an alternation of literals, always
preceded by `\b` in the source patterns (`bEnd` records whether a trailing
`\b` is also required). -/
structure Tok where
  alts : List (List Char)
  bEnd : Bool

/-- Trailing `\b` check: the remainder starts with a non-word character or
is empty (every literal ends in a word character). -/
def nonWordHead : List Char → Bool
  | [] => true
  | c :: _ => !isWordChar c

/-- Try to match token `t` exactly at the current position. `prevW` says
whether the character just before this position is a word character (the
leading `\b` of every token requires it to be false). -/
def tokMatch (prevW : Bool) (t : Tok) (s : List Char) : Option (List Char) :=
  if prevW then none
  else t.alts.findSome? fun a =>
    match litTake a s with
    | none => none
    | some rest => if !t.bEnd || nonWordHead rest then some rest else none

/-- Scan left to right for the earliest position where token `t` matches;
return the remainder after the match. -/
def findTokFrom (t : Tok) (prevW : Bool) (s : List Char) : Option (List Char) :=
  match tokMatch prevW t s with
  | some rest => some rest
  | none =>
    match s with
    | [] => none
    | c :: cs => findTokFrom t (isWordChar c) cs

/-- Match a sequence of tokens separated by `.*`, in order. After a token
matches, the previous character is the last character of its literal, which
is always a word character, hence `prevW := true` for the continuation. -/
def seqSearch : List Tok → Bool → List Char → Bool
  | [], _, _ => true
  | t :: ts, prevW, s =>
    match findTokFrom t prevW s with
    | none => false
    | some rest => seqSearch ts true rest

/-- `re.search` of a compiled token-sequence pattern over the whole text
(start of text counts as a non-word position). -/
def reSearch (toks : List Tok) (q : List Char) : Bool := seqSearch toks false q

/-- Build a token from string literals. -/
def tk (alts : List String) (bEnd : Bool) : Tok := ⟨alts.map String.data, bEnd⟩

/-! ### The individual rule predicates of `generate_sql_from_pattern`.

Each is the faithful compilation of the corresponding `re.search` call in
src/app.py lines 356-452, in source order.  Alternations such as
`products?` with no trailing `\b` reduce to the shorter literal (matching
`products` at a word start implies matching `product` there). -/

/-- Rule 1: `\b(show|list|what|display)\b.*\btables?\b`. -/
def p1 (q : List Char) : Bool :=
  reSearch [tk ["show", "list", "what", "display"] true, tk ["table", "tables"] true] q

/-- Rule 2: `\b(describe|schema|structure)\b.*\b(products?|users?|orders?)`. -/
def p2 (q : List Char) : Bool :=
  reSearch [tk ["describe", "schema", "structure"] true, tk ["product", "user", "order"] false] q

/-- Rule 3: `\b(count|how many)\b.*\bproducts?\b`. -/
def p3 (q : List Char) : Bool :=
  reSearch [tk ["count", "how many"] true, tk ["product", "products"] true] q

/-- Rule 4: `\b(show|list|get|display)\b.*(all)?\s*\bproducts?\b` and
`'category' not in q`.  The `(all)?\s*` part can always match the empty
string after `.*`, so it does not constrain satisfiability. -/
def p4 (q : List Char) : Bool :=
  reSearch [tk ["show", "list", "get", "display"] true, tk ["product", "products"] true] q
    && !containsL q "category".data

/-- Rule 5: `\b(top|most|highest)\b.*\b(expensive|price)\b.*\bproducts?\b`. -/
def p5 (q : List Char) : Bool :=
  reSearch [tk ["top", "most", "highest"] true, tk ["expensive", "price"] true,
    tk ["product", "products"] true] q

/-- Rule 6: `\b(cheap|cheapest|lowest)\b.*\bprice`. -/
def p6 (q : List Char) : Bool :=
  reSearch [tk ["cheap", "cheapest", "lowest"] true, tk ["price"] false] q

/-- Rule 7: `\b(top|best|highest)\b.*\b(rated|rating)\b`. -/
def p7 (q : List Char) : Bool :=
  reSearch [tk ["top", "best", "highest"] true, tk ["rated", "rating"] true] q

/-- Rule 8: `\b(average|avg|mean)\b.*\bprice`. -/
def p8 (q : List Char) : Bool :=
  reSearch [tk ["average", "avg", "mean"] true, tk ["price"] false] q

/-- Rule 11: `\b(count|how many)\b.*\busers?\b`. -/
def p11 (q : List Char) : Bool :=
  reSearch [tk ["count", "how many"] true, tk ["user", "users"] true] q

/-- Rule 12: `\b(list|show|all)\b.*\busers?\b`. -/
def p12 (q : List Char) : Bool :=
  reSearch [tk ["list", "show", "all"] true, tk ["user", "users"] true] q

/-- Rule 13: `\b(count|how many)\b.*\borders?\b`. -/
def p13 (q : List Char) : Bool :=
  reSearch [tk ["count", "how many"] true, tk ["order", "orders"] true] q

/-- Rule 14: `\b(total|sum).*\b(revenue|sales)\b`. -/
def p14 (q : List Char) : Bool :=
  reSearch [tk ["total", "sum"] false, tk ["revenue", "sales"] true] q

/-- Rule 15: `\b(recent|latest)\b.*\borders?\b`. -/
def p15 (q : List Char) : Bool :=
  reSearch [tk ["recent", "latest"] true, tk ["order", "orders"] true] q

/-- Rule 16: `\bcategor`. -/
def p16 (q : List Char) : Bool := reSearch [tk ["categor"] false] q

/-- Rule 17: `\bbrands?\b.*\b(count|list)`. -/
def p17 (q : List Char) : Bool :=
  reSearch [tk ["brand", "brands"] true, tk ["count", "list"] false] q

/-- Rule 18: `\b(popular|most viewed|trending)\b.*\bproducts?\b`. -/
def p18 (q : List Char) : Bool :=
  reSearch [tk ["popular", "most viewed", "trending"] true, tk ["product", "products"] true] q

/-- Rule 19: `\buser.*\bactivity\b`. -/
def p19 (q : List Char) : Bool :=
  reSearch [tk ["user"] false, tk ["activity"] true] q

/-! ### Numeric extraction helpers -/

/-- `re.search(r'\b(\d+)\b', q)`: the first maximal run of digits whose
neighbours on both sides are non-word characters (or the ends of the
string).  A shorter, backtracked run can never satisfy the trailing `\b`
(digit/digit is not a boundary), and a start inside a run is not at a
boundary, so scanning for the first delimited maximal run is exact.
`prevW` records whether the previous character is a word character. -/
def boundedDigitScan : Bool → List Char → Option (List Char)
  | _, [] => none
  | prevW, c :: cs =>
    if !prevW && c.isDigit then
      match cs.dropWhile Char.isDigit with
      | [] => some (c :: cs.takeWhile Char.isDigit)
      | d :: _ =>
        if !isWordChar d then some (c :: cs.takeWhile Char.isDigit)
        else boundedDigitScan true cs
    else boundedDigitScan (isWordChar c) cs

/-- `get_limit(default='10')` of app.py lines 351-353. -/
def getLimitL (q : List Char) : List Char :=
  (boundedDigitScan false q).getD "10".data

/-- After a matched keyword, require `\s+` then `(\d+)` and return the
(greedy, maximal) digit group. -/
def spaceThenDigits (rest : List Char) : Option (List Char) :=
  if !(rest.takeWhile isSpaceChar).isEmpty
      && !((rest.dropWhile isSpaceChar).takeWhile Char.isDigit).isEmpty then
    some ((rest.dropWhile isSpaceChar).takeWhile Char.isDigit)
  else none

/-- Attempt `under\s+(\d+)` exactly at the current position. -/
def underHere (s : List Char) : Option (List Char) :=
  match litTake "under".data s with
  | none => none
  | some rest => spaceThenDigits rest

/-- Attempt `(above|over)\s+(\d+)` exactly at the current position. -/
def aboveOverHere (s : List Char) : Option (List Char) :=
  match
    (match litTake "above".data s with
     | some rest => some rest
     | none => litTake "over".data s) with
  | none => none
  | some rest => spaceThenDigits rest

/-- `re.search(r'\bunder\s+(\d+)', q)`: scan for the earliest `under` at a
word boundary followed by whitespace then digits; return the digit run. -/
def scanUnder : Bool → List Char → Option (List Char)
  | _, [] => none
  | prevW, c :: cs =>
    match (if prevW then none else underHere (c :: cs)) with
    | some ds => some ds
    | none => scanUnder (isWordChar c) cs

/-- `re.search(r'\b(above|over)\s+(\d+)', q)`, returning group 2. -/
def scanAboveOver : Bool → List Char → Option (List Char)
  | _, [] => none
  | prevW, c :: cs =>
    match (if prevW then none else aboveOverHere (c :: cs)) with
    | some ds => some ds
    | none => scanAboveOver (isWordChar c) cs

/-! ### The query templates, byte-exact from src/app.py. -/

def tmpl1 : String := "SELECT name FROM sqlite_master WHERE type='table' ORDER BY name;"

def tmpl2 : String := "SELECT sql FROM sqlite_master WHERE type='table' ORDER BY name;"

def tmpl3 : String := "SELECT COUNT(*) as total_products FROM products;"

def tmpl4 : String := "SELECT id, name, price, brand, category, rating FROM products LIMIT 100;"

def tmpl5 (lim : List Char) : String :=
  String.mk ("SELECT name, price, brand, category, rating FROM products ORDER BY price DESC LIMIT ".data ++ lim ++ ";".data)

def tmpl6 (lim : List Char) : String :=
  String.mk ("SELECT name, price, brand, category, rating FROM products ORDER BY price ASC LIMIT ".data ++ lim ++ ";".data)

def tmpl7 (lim : List Char) : String :=
  String.mk ("SELECT name, rating, price, brand, category FROM products ORDER BY rating DESC LIMIT ".data ++ lim ++ ";".data)

def tmpl8 : String := "SELECT ROUND(AVG(price), 2) as average_price, COUNT(*) as total_products FROM products;"

def tmpl9 (price : List Char) : String :=
  String.mk ("SELECT name, price, brand, rating FROM products WHERE price < ".data ++ price ++ " ORDER BY price DESC LIMIT 100;".data)

def tmpl10 (price : List Char) : String :=
  String.mk ("SELECT name, price, brand, rating FROM products WHERE price > ".data ++ price ++ " ORDER BY price ASC LIMIT 100;".data)

def tmpl11 : String := "SELECT COUNT(*) as total_users FROM users;"

def tmpl12 : String := "SELECT id, username, email, created_at FROM users LIMIT 100;"

def tmpl13 : String := "SELECT COUNT(*) as total_orders FROM orders;"

def tmpl14 : String := "SELECT SUM(total) as total_revenue, COUNT(*) as total_orders, ROUND(AVG(total), 2) as avg_order_value FROM orders;"

def tmpl15 (lim : List Char) : String :=
  String.mk ("SELECT o.id, o.user_id, u.username, o.total, o.status, o.created_at FROM orders o LEFT JOIN users u ON o.user_id = u.id ORDER BY o.created_at DESC LIMIT ".data ++ lim ++ ";".data)

def tmpl16 : String := "SELECT category, COUNT(*) as product_count, ROUND(AVG(price), 2) as avg_price FROM products GROUP BY category ORDER BY product_count DESC;"

def tmpl17 : String := "SELECT brand, COUNT(*) as product_count, ROUND(AVG(price), 2) as avg_price FROM products GROUP BY brand ORDER BY product_count DESC LIMIT 20;"

def tmpl18 : String := "SELECT p.name, p.price, p.brand, COUNT(i.id) as view_count \n                  FROM products p \n                  LEFT JOIN interactions i ON p.id = i.product_id \n                  WHERE i.action = 'view' \n                  GROUP BY p.id \n                  ORDER BY view_count DESC \n                  LIMIT 20;"

def tmpl19 : String := "SELECT u.username, COUNT(DISTINCT i.id) as interactions, \n                  COUNT(DISTINCT o.id) as orders, SUM(o.total) as total_spent\n                  FROM users u\n                  LEFT JOIN interactions i ON u.id = i.user_id\n                  LEFT JOIN orders o ON u.id = o.user_id\n                  GROUP BY u.id\n                  ORDER BY interactions DESC\n                  LIMIT 50;"

def brandTmpl (brand : List Char) : String :=
  String.mk ("SELECT name, price, rating, category FROM products WHERE LOWER(brand) = '".data ++ brand ++ "' ORDER BY rating DESC LIMIT 100;".data)

def catTmpl (cat : List Char) : String :=
  String.mk ("SELECT name, price, brand, rating FROM products WHERE LOWER(category) = '".data ++ cat ++ "' ORDER BY rating DESC LIMIT 100;".data)

/-- `generate_sql_from_pattern` of src/app.py lines 347-454: the ordered
if-chain over the normalized (lower-cased, stripped) question; first match
wins; `none` when nothing matches. -/
def generate_sql_from_pattern (question : String) : Option String :=
  let q := trimL (lowerL question.data)
  if p1 q then some tmpl1
  else if p2 q then some tmpl2
  else if p3 q then some tmpl3
  else if p4 q then some tmpl4
  else if p5 q then some (tmpl5 (getLimitL q))
  else if p6 q then some (tmpl6 (getLimitL q))
  else if p7 q then some (tmpl7 (getLimitL q))
  else if p8 q then some tmpl8
  else match scanUnder false q with
  | some price => some (tmpl9 price)
  | none =>
    match scanAboveOver false q with
    | some price => some (tmpl10 price)
    | none =>
      if p11 q then some tmpl11
      else if p12 q then some tmpl12
      else if p13 q then some tmpl13
      else if p14 q then some tmpl14
      else if p15 q then some (tmpl15 (getLimitL q))
      else if p16 q then some tmpl16
      else if p17 q then some tmpl17
      else if p18 q then some tmpl18
      else if p19 q then some tmpl19
      else if containsL q "nike".data then some (brandTmpl "nike".data)
      else if containsL q "adidas".data then some (brandTmpl "adidas".data)
      else if containsL q "puma".data then some (brandTmpl "puma".data)
      else if containsL q "zara".data then some (brandTmpl "zara".data)
      else if containsL q "h&m".data then some (brandTmpl "h&m".data)
      else if containsL q "levis".data then some (brandTmpl "levis".data)
      else if containsL q "men".data then some (catTmpl "men".data)
      else if containsL q "women".data then some (catTmpl "women".data)
      else if containsL q "kids".data then some (catTmpl "kids".data)
      else if containsL q "accessories".data then some (catTmpl "accessories".data)
      else none

/-! ### The Gemini candidate cleanup and validation, src/app.py lines 321-340. -/

/-- Fuelled worker for `replaceL`: each step consumes at least one
character of `s` (the patterns used are non-empty), so fuel `s.length`
suffices; structural recursion on the fuel keeps it kernel-computable. -/
def replaceLFuel (pat rep : List Char) : Nat → List Char → List Char
  | 0, s => s
  | fuel + 1, s =>
    match s with
    | [] => []
    | c :: rest =>
      match litTake pat (c :: rest) with
      | some rem => rep ++ replaceLFuel pat rep fuel rem
      | none => c :: replaceLFuel pat rep fuel rest

/-- Python `hay.replace(pat, rep)`: replace every non-overlapping occurrence
left to right (all uses have a non-empty `pat`). -/
def replaceL (pat rep s : List Char) : List Char := replaceLFuel pat rep s.length s

/-- Python `s.split('\n')`. -/
def splitNl : List Char → List (List Char)
  | [] => [[]]
  | c :: cs =>
    if c == '\n' then [] :: splitNl cs
    else
      match splitNl cs with
      | [] => [[c]]
      | l :: ls => (c :: l) :: ls

/-- The response-text cleanup of lines 321-330: strip, remove code-fence
markup and the prompt header, strip, and keep the first non-empty line if
several lines remain. -/
def clean_sql (raw : List Char) : List Char :=
  let s1 := trimL raw
  let s2 := trimL (replaceL "```".data [] (replaceL "```sql".data [] s1))
  let s3 := trimL (replaceL "**SQL Query:**".data [] s2)
  if containsL s3 "\n".data then
    (((splitNl s3).map trimL).filter (fun l => !l.isEmpty)).headD []
  else s3

/-- `"SELECT"` upper-cased, the read-fetch keyword. -/
def selU : List Char := "SELECT".data

/-- `"LIMIT" in sql.upper()` (line 337). -/
def hasLimitKw (sql : List Char) : Bool := containsL (upperL sql) "LIMIT".data

/-- The aggregate-function needles of line 337. -/
def aggNeedles : List (List Char) :=
  ["COUNT(".data, "SUM(".data, "AVG(".data, "MAX(".data, "MIN(".data]

/-- `any(agg in sql.upper() for agg in [...])` (line 337). -/
def hasAggKw (sql : List Char) : Bool :=
  aggNeedles.any fun a => containsL (upperL sql) a

/-- `sql.upper().startswith("SELECT")` (line 333). -/
def startsSelect (sql : List Char) : Bool := startsWithL selU (upperL sql)

/-- Python `sql.rstrip(';')`: drop the trailing run of semicolons. -/
def rstripSemi : List Char → List Char
  | [] => []
  | c :: cs =>
    match rstripSemi cs with
    | [] => if c == ';' then [] else [c]
    | d :: ds => c :: d :: ds

/-- The suffix appended on line 338. -/
def limitSuffix : List Char := " LIMIT 100;".data

/-- Lines 332-340: reject anything not starting (case-insensitively) with
SELECT; append `LIMIT 100` when no LIMIT keyword and no aggregate call is
present; otherwise pass the candidate through unchanged. -/
def validate_sql (sql : List Char) : Option (List Char) :=
  if !startsSelect sql then none
  else if !hasLimitKw sql && !hasAggKw sql then
    some (rstripSemi sql ++ limitSuffix)
  else some sql

/-- `generate_sql_with_gemini` of lines 267-344, with the external call
abstracted as an `Except`: `Except.error` is an exception raised by the
network call (timeout, quota, malformed response), `Except.ok` is the raw
response text.  Any exception is caught and becomes `none` (lines 342-344);
when Gemini is not enabled the function returns `none` immediately. -/
def generate_sql_with_gemini (enabled : Bool) (aiRaw : Except String String) : Option String :=
  if !enabled then none
  else
    match aiRaw with
    | Except.error _ => none
    | Except.ok txt => (validate_sql (clean_sql txt.data)).map String.mk

/-! ### The endpoint `POST /api/database/query`, src/app.py lines 457-523. -/

/-- The shaped result of executing a query: column names plus rows as
column-to-value mappings (line 495-498). -/
structure QueryResult where
  columns : List String
  rows : List (List (String × String))

/-- The JSON response of the endpoint: either the success body of lines
506-515 (all eight fields) or an error body with its HTTP status. -/
inductive ApiResponse where
  | success (question sql_query explanation : String)
      (results : List (List (String × String)))
      (row_count : Nat) (columns : List String) (source : String)
  | failure (http : Nat) (message : String) (suggestion : Option String)
deriving DecidableEq, Repr

/-- Lines 501-504: the explanation string, keyed on the provenance tag. -/
def explanationFor (source : String) (n : Nat) : String :=
  if source = "gemini" then
    "✨ Query generated by Gemini AI. Found " ++ toString n ++ " results."
  else
    "🔍 Query generated by pattern matching. Found " ++ toString n ++ " results."

/-- Lines 470-484: try Gemini first when enabled, fall back to the
pattern rules, and record the provenance tag. -/
def chosenSql (enabled : Bool) (question : String) (aiRaw : Except String String) :
    Option (String × String) :=
  match generate_sql_with_gemini enabled aiRaw with
  | some s => some (s, "gemini")
  | none =>
    match generate_sql_from_pattern question with
    | some s => some (s, "pattern")
    | none => none

/-- `api_database_query` of lines 457-523.  `enabled` is GEMINI_ENABLED,
`dbConnected` models `db_engine` being non-null, `aiRaw` is the outcome of
the external Gemini call, and `exec` is the storage engine: `Except.error`
carries the engine's raw diagnostic message (the `str(e)` of line 518). -/
def api_database_query (enabled dbConnected : Bool) (question : String)
    (aiRaw : Except String String)
    (exec : String → Except String QueryResult) : ApiResponse :=
  let qt := String.mk (trimL question.data)
  if qt = "" then ApiResponse.failure 400 "Please provide a question" none
  else if !dbConnected then ApiResponse.failure 500 "Database not connected" none
  else
    match chosenSql enabled qt aiRaw with
    | none =>
      ApiResponse.failure 400
        "Could not understand your question. Try: 'Show top 10 expensive products' or 'Count all users'"
        none
    | some (sql, src) =>
      match exec sql with
      | Except.ok r =>
        ApiResponse.success qt sql (explanationFor src r.rows.length)
          r.rows r.rows.length r.columns src
      | Except.error e =>
        ApiResponse.failure 400 ("Query execution error: " ++ e)
          (some "Try rephrasing your question or check the SQL syntax.")

/-- A storage engine that succeeds with an empty result, for witnesses. -/
def execOk : String → Except String QueryResult := fun _ => Except.ok ⟨[], []⟩

/-- A storage engine that rejects every query, for witnesses. -/
def execFail : String → Except String QueryResult :=
  fun _ => Except.error "no such column: foo"

/-! ### The rule-list view of the pattern translator.

`generate_sql_from_pattern` is an if-chain; this packages the same
predicates and templates as an ordered list evaluated first-match-first, so
that the first-match-wins property can be stated positionally.  The brand
and category loops of lines 442-452 unfold into one rule per vocabulary
item, in loop order. -/

structure SqlRule where
  pred : List Char → Bool
  tmpl : List Char → String

/-- The 29 rules of `generate_sql_from_pattern`, in evaluation order. -/
def patternRules : List SqlRule := [
  ⟨p1, fun _ => tmpl1⟩,
  ⟨p2, fun _ => tmpl2⟩,
  ⟨p3, fun _ => tmpl3⟩,
  ⟨p4, fun _ => tmpl4⟩,
  ⟨p5, fun q => tmpl5 (getLimitL q)⟩,
  ⟨p6, fun q => tmpl6 (getLimitL q)⟩,
  ⟨p7, fun q => tmpl7 (getLimitL q)⟩,
  ⟨p8, fun _ => tmpl8⟩,
  ⟨fun q => (scanUnder false q).isSome, fun q => tmpl9 ((scanUnder false q).getD [])⟩,
  ⟨fun q => (scanAboveOver false q).isSome, fun q => tmpl10 ((scanAboveOver false q).getD [])⟩,
  ⟨p11, fun _ => tmpl11⟩,
  ⟨p12, fun _ => tmpl12⟩,
  ⟨p13, fun _ => tmpl13⟩,
  ⟨p14, fun _ => tmpl14⟩,
  ⟨p15, fun q => tmpl15 (getLimitL q)⟩,
  ⟨p16, fun _ => tmpl16⟩,
  ⟨p17, fun _ => tmpl17⟩,
  ⟨p18, fun _ => tmpl18⟩,
  ⟨p19, fun _ => tmpl19⟩,
  ⟨fun q => containsL q "nike".data, fun _ => brandTmpl "nike".data⟩,
  ⟨fun q => containsL q "adidas".data, fun _ => brandTmpl "adidas".data⟩,
  ⟨fun q => containsL q "puma".data, fun _ => brandTmpl "puma".data⟩,
  ⟨fun q => containsL q "zara".data, fun _ => brandTmpl "zara".data⟩,
  ⟨fun q => containsL q "h&m".data, fun _ => brandTmpl "h&m".data⟩,
  ⟨fun q => containsL q "levis".data, fun _ => brandTmpl "levis".data⟩,
  ⟨fun q => containsL q "men".data, fun _ => catTmpl "men".data⟩,
  ⟨fun q => containsL q "women".data, fun _ => catTmpl "women".data⟩,
  ⟨fun q => containsL q "kids".data, fun _ => catTmpl "kids".data⟩,
  ⟨fun q => containsL q "accessories".data, fun _ => catTmpl "accessories".data⟩]

/-- Evaluate an ordered rule list, first satisfied predicate wins. -/
def applyRules : List SqlRule → List Char → Option String
  | [], _ => none
  | r :: rs, q => if r.pred q then some (r.tmpl q) else applyRules rs q

/-- The if-chain and the rule-list evaluation agree. -/
theorem generate_sql_from_pattern_eq (question : String) :
    generate_sql_from_pattern question
      = applyRules patternRules (trimL (lowerL question.data)) := by
  unfold generate_sql_from_pattern
  cases hu : scanUnder false (trimL (lowerL question.data)) with
  | some price =>
    cases ha : scanAboveOver false (trimL (lowerL question.data)) <;>
      simp [patternRules, applyRules, hu, ha]
  | none =>
    cases ha : scanAboveOver false (trimL (lowerL question.data)) <;>
      simp [patternRules, applyRules, hu, ha]

/-- First-match-wins, generic over rule lists. -/
theorem applyRules_first (rs : List SqlRule) (q : List Char) :
    ∀ (k : Nat) (hk : k < rs.length),
      (rs.get ⟨k, hk⟩).pred q = true →
      (∀ j, (hj : j < k) → (rs.get ⟨j, Nat.lt_trans hj hk⟩).pred q = false) →
      applyRules rs q = some ((rs.get ⟨k, hk⟩).tmpl q) := by
  induction rs with
  | nil => intro k hk _ _; exact absurd hk (by simp)
  | cons r rs ih =>
    intro k hk hp hj
    cases k with
    | zero => simp only [List.get] at hp ⊢; simp [applyRules, hp]
    | succ k =>
      have h0 : r.pred q = false := hj 0 (Nat.succ_pos k)
      simp only [List.get] at hp ⊢
      simp only [applyRules, h0, Bool.false_eq_true, if_false]
      exact ih k (Nat.lt_of_succ_lt_succ hk) hp
        (fun j hjk => hj (j + 1) (Nat.succ_lt_succ hjk))

/-- If no predicate holds, the evaluation yields `none`. -/
theorem applyRules_none (rs : List SqlRule) (q : List Char)
    (h : ∀ j, (hj : j < rs.length) → (rs.get ⟨j, hj⟩).pred q = false) :
    applyRules rs q = none := by
  induction rs with
  | nil => rfl
  | cons r rs ih =>
    have h0 : r.pred q = false := h 0 (Nat.succ_pos _)
    simp only [applyRules, h0, Bool.false_eq_true, if_false]
    exact ih (fun j hj => h (j + 1) (Nat.succ_lt_succ hj))

/-- Any produced query is the template of some rule whose predicate holds. -/
theorem applyRules_mem (rs : List SqlRule) (q : List Char) (s : String)
    (h : applyRules rs q = some s) :
    ∃ r, r ∈ rs ∧ r.pred q = true ∧ s = r.tmpl q := by
  induction rs with
  | nil => exact absurd h (by simp [applyRules])
  | cons r rs ih =>
    by_cases hp : r.pred q = true
    · refine ⟨r, List.mem_cons_self .., hp, ?_⟩
      simp only [applyRules, hp, if_true] at h
      exact (Option.some.inj h).symm
    · simp only [applyRules, hp, if_false] at h
      obtain ⟨r0, hmem, hpred, htm⟩ := ih h
      exact ⟨r0, List.mem_cons_of_mem _ hmem, hpred, htm⟩

/-! ### Claim C1 -/

/-- C1: for every question, the rule-based translator returns the template
of the first rule (in evaluation order) whose predicate matches the
lower-cased, trimmed question; no rule after the first match is consulted;
and it returns `none` when no rule matches.  The result is a total function
of the question text. -/
theorem c1_rule_priority (question : String) :
    (∀ (k : Nat) (hk : k < patternRules.length),
        (patternRules.get ⟨k, hk⟩).pred (trimL (lowerL question.data)) = true →
        (∀ j, (hj : j < k) →
          (patternRules.get ⟨j, Nat.lt_trans hj hk⟩).pred (trimL (lowerL question.data)) = false) →
        generate_sql_from_pattern question
          = some ((patternRules.get ⟨k, hk⟩).tmpl (trimL (lowerL question.data))))
  ∧ ((∀ j, (hj : j < patternRules.length) →
        (patternRules.get ⟨j, hj⟩).pred (trimL (lowerL question.data)) = false) →
      generate_sql_from_pattern question = none) := by
  constructor
  · intro k hk hp hj
    rw [generate_sql_from_pattern_eq]
    exact applyRules_first _ _ k hk hp hj
  · intro h
    rw [generate_sql_from_pattern_eq]
    exact applyRules_none _ _ h

/-- Witness for C1: no rule matches the question `hello`, so the translator
returns `none`. -/
theorem c1_rule_priority_witness :
    generate_sql_from_pattern "hello" = none :=
  (c1_rule_priority "hello").2 (by decide)

/-! ### Claim C2 -/

/-- Counterexample to C2: on `"show top 5 expensive products"` rule 4 (the
generic show/list-products rule, line 366) matches before rule 5, so the
translator returns the unordered 100-row listing, not the price-descending
LIMIT 5 query that the claim asserts. -/
theorem c2_counterexample :
    generate_sql_from_pattern "show top 5 expensive products"
      = some "SELECT id, name, price, brand, category, rating FROM products LIMIT 100;"
  ∧ generate_sql_from_pattern "show top 5 expensive products"
      ≠ some "SELECT name, price, brand, category, rating FROM products ORDER BY price DESC LIMIT 5;" := by
  exact ⟨by decide, by decide⟩

/-- C2 amended: `"show top 5 expensive products"` fires rule 4 (generic
bounded listing, LIMIT 100); the phrasing without the leading `show`,
`"top 5 expensive products"`, fires rule 5, extracts the limit 5, and
returns the price-descending listing with LIMIT 5. -/
theorem c2_amended :
    generate_sql_from_pattern "show top 5 expensive products"
      = some "SELECT id, name, price, brand, category, rating FROM products LIMIT 100;"
  ∧ generate_sql_from_pattern "top 5 expensive products"
      = some "SELECT name, price, brand, category, rating FROM products ORDER BY price DESC LIMIT 5;" := by
  exact ⟨by decide, by decide⟩

/-! ### Claim C8 -/

/-- Modelled from the spec: "the first run of digits anywhere in the
normalized question" — the first maximal digit run with no word-boundary
requirement.  Used only to compare the spec wording against the code. -/
def firstDigitRun : List Char → Option (List Char)
  | [] => none
  | c :: cs =>
    if c.isDigit then some (c :: cs.takeWhile Char.isDigit)
    else firstDigitRun cs

/-- Every element kept by `takeWhile` satisfies the predicate. -/
theorem all_takeWhile (p : Char → Bool) : ∀ (l : List Char), (l.takeWhile p).all p = true
  | [] => rfl
  | c :: cs => by
    by_cases hp : p c = true
    · simp [List.takeWhile_cons, hp, all_takeWhile p cs]
    · simp [List.takeWhile_cons, hp]

/-- Soundness of the digit scan: a returned run is a non-empty all-digit
segment of the text whose two neighbours (or ends) are non-word. -/
theorem boundedDigitScan_sound : ∀ (s : List Char) (prevW : Bool) (ds : List Char),
    boundedDigitScan prevW s = some ds →
    ds ≠ [] ∧ ds.all Char.isDigit = true ∧
    ∃ pre post, s = pre ++ ds ++ post ∧
      ((pre = [] ∧ prevW = false) ∨ ∃ c pre2, pre = pre2 ++ [c] ∧ isWordChar c = false) ∧
      (post = [] ∨ ∃ c post2, post = c :: post2 ∧ isWordChar c = false) := by
  intro s
  induction s with
  | nil => intro prevW ds h; exact absurd h (by simp [boundedDigitScan])
  | cons c cs ih =>
    intro prevW ds h
    rw [boundedDigitScan] at h
    by_cases hc : (!prevW && c.isDigit) = true
    · rw [if_pos hc] at h
      have hpw : prevW = false := by
        cases prevW <;> simp_all
      have hcd : c.isDigit = true := by
        cases hcd : c.isDigit <;> simp_all
      rcases hdw : cs.dropWhile Char.isDigit with _ | ⟨d, rest⟩
      · rw [hdw] at h
        have h2 : some (c :: cs.takeWhile Char.isDigit) = some ds := h
        have hds : ds = c :: cs.takeWhile Char.isDigit := (Option.some.inj h2).symm
        have hcs : cs.takeWhile Char.isDigit = cs := by
          have h3 := List.takeWhile_append_dropWhile (p := Char.isDigit) (l := cs)
          rw [hdw, List.append_nil] at h3
          exact h3
        refine ⟨by simp [hds], by simp [hds, hcd, all_takeWhile], [], [], ?_,
          Or.inl ⟨rfl, hpw⟩, Or.inl rfl⟩
        simp [hds, hcs]
      · rw [hdw] at h
        have h2 : (if (!isWordChar d) = true
            then some (c :: cs.takeWhile Char.isDigit)
            else boundedDigitScan true cs) = some ds := h
        by_cases hw : (!isWordChar d) = true
        · rw [if_pos hw] at h2
          have hds : ds = c :: cs.takeWhile Char.isDigit := (Option.some.inj h2).symm
          have hcs : cs = cs.takeWhile Char.isDigit ++ (d :: rest) := by
            conv_lhs => rw [← List.takeWhile_append_dropWhile (p := Char.isDigit) (l := cs)]
            rw [hdw]
          refine ⟨by simp [hds], by simp [hds, hcd, all_takeWhile], [], d :: rest, ?_,
            Or.inl ⟨rfl, hpw⟩, Or.inr ⟨d, rest, rfl, by simpa using hw⟩⟩
          simpa [hds] using hcs
        · rw [if_neg hw] at h2
          obtain ⟨hne, hall, pre, post, hsplit, hpre, hpost⟩ := ih true ds h2
          rcases hpre with ⟨_, hfalse⟩ | ⟨c0, pre2, hpre2, hnw⟩
          · exact absurd hfalse (by simp)
          · refine ⟨hne, hall, c :: pre, post, by simp [hsplit], ?_, hpost⟩
            exact Or.inr ⟨c0, c :: pre2, by simp [hpre2], hnw⟩
    · rw [if_neg hc] at h
      obtain ⟨hne, hall, pre, post, hsplit, hpre, hpost⟩ := ih (isWordChar c) ds h
      rcases hpre with ⟨hpre0, hw0⟩ | ⟨c0, pre2, hpre2, hnw⟩
      · refine ⟨hne, hall, [c], post, by simp [hsplit, hpre0], ?_, hpost⟩
        exact Or.inr ⟨c, [], rfl, hw0⟩
      · refine ⟨hne, hall, c :: pre, post, by simp [hsplit], ?_, hpost⟩
        exact Or.inr ⟨c0, c :: pre2, by simp [hpre2], hnw⟩

/-- Counterexample to C8: in `"most expensive price products top5"` the
first run of digits is the `5` of `top5`, but the code's `\b(\d+)\b`
pattern skips it (it is glued to a word character), so rule 5 falls back to
the default limit 10, not 5 as the claim requires. -/
theorem c8_counterexample :
    firstDigitRun (trimL (lowerL "most expensive price products top5".data)) = some ['5']
  ∧ generate_sql_from_pattern "most expensive price products top5"
      = some "SELECT name, price, brand, category, rating FROM products ORDER BY price DESC LIMIT 10;"
  ∧ generate_sql_from_pattern "most expensive price products top5"
      ≠ some "SELECT name, price, brand, category, rating FROM products ORDER BY price DESC LIMIT 5;" :=
  ⟨by decide, by decide, by decide⟩

/-- C8 amended: wherever the limit rule applies, the extracted bound is the
first maximal run of digits that is delimited by word boundaries (not
adjacent to any letter, digit or underscore); when no such delimited run
exists — even if digits occur glued to word characters — the default 10 is
used.  The third part ties the extraction to rule 5: when rule 5 is the
first match, its template carries exactly this bound. -/
theorem c8_amended (question : String) :
    (∀ ds, boundedDigitScan false (trimL (lowerL question.data)) = some ds →
        getLimitL (trimL (lowerL question.data)) = ds
      ∧ ds ≠ [] ∧ ds.all Char.isDigit = true
      ∧ ∃ pre post, trimL (lowerL question.data) = pre ++ ds ++ post
          ∧ (pre = [] ∨ ∃ c pre2, pre = pre2 ++ [c] ∧ isWordChar c = false)
          ∧ (post = [] ∨ ∃ c post2, post = c :: post2 ∧ isWordChar c = false))
  ∧ (boundedDigitScan false (trimL (lowerL question.data)) = none →
      getLimitL (trimL (lowerL question.data)) = "10".data)
  ∧ (p5 (trimL (lowerL question.data)) = true →
      p1 (trimL (lowerL question.data)) = false →
      p2 (trimL (lowerL question.data)) = false →
      p3 (trimL (lowerL question.data)) = false →
      p4 (trimL (lowerL question.data)) = false →
      generate_sql_from_pattern question
        = some (tmpl5 (getLimitL (trimL (lowerL question.data))))) := by
  refine ⟨?_, ?_, ?_⟩
  · intro ds h
    obtain ⟨hne, hall, pre, post, hsplit, hpre, hpost⟩ :=
      boundedDigitScan_sound _ false ds h
    refine ⟨by simp [getLimitL, h], hne, hall, pre, post, hsplit, ?_, hpost⟩
    rcases hpre with ⟨h0, _⟩ | hx
    · exact Or.inl h0
    · exact Or.inr hx
  · intro h
    simp [getLimitL, h]
  · intro h5 h1 h2 h3 h4
    unfold generate_sql_from_pattern
    simp [h1, h2, h3, h4, h5]

/-- Witness for C8 amended: `"top 7 expensive products"` fires rule 5 with
the delimited digit run 7. -/
theorem c8_amended_witness :
    generate_sql_from_pattern "top 7 expensive products"
      = some (tmpl5 (getLimitL (trimL (lowerL "top 7 expensive products".data)))) :=
  (c8_amended "top 7 expensive products").2.2 (by decide) (by decide) (by decide)
    (by decide) (by decide)

/-! ### Prefix and substring lemmas for the validator -/

theorem startsWithL_append_left : ∀ (p a b : List Char),
    startsWithL p a = true → startsWithL p (a ++ b) = true
  | [], _, _, _ => rfl
  | _ :: _, [], _, h => absurd h (by simp [startsWithL])
  | c :: cs, d :: ds, b, h => by
    simp only [startsWithL, Bool.and_eq_true] at h
    simp only [List.cons_append, startsWithL, Bool.and_eq_true]
    exact ⟨h.1, startsWithL_append_left cs ds b h.2⟩

theorem startsWithL_refl : ∀ (l : List Char), startsWithL l l = true
  | [] => rfl
  | c :: cs => by
    simp only [startsWithL, Bool.and_eq_true]
    exact ⟨by simp, startsWithL_refl cs⟩

theorem containsL_nil_needle : ∀ (hay : List Char), containsL hay [] = true
  | [] => rfl
  | _ :: cs => by
    simp only [containsL, startsWithL, Bool.or_eq_true]
    exact Or.inl trivial

theorem containsL_of_startsWithL : ∀ (hay n : List Char),
    startsWithL n hay = true → containsL hay n = true
  | [], [], _ => rfl
  | [], _ :: _, h => absurd h (by simp [startsWithL])
  | _ :: _, n, h => by
    simp only [containsL, Bool.or_eq_true]
    exact Or.inl h

theorem containsL_append_left : ∀ (a b n : List Char),
    containsL a n = true → containsL (a ++ b) n = true
  | [], b, n, h => by
    have : n = [] := by
      cases n with
      | nil => rfl
      | cons c cs => exact absurd h (by simp [containsL, List.isEmpty])
    subst this
    exact containsL_nil_needle b
  | c :: cs, b, n, h => by
    simp only [containsL, Bool.or_eq_true] at h
    simp only [List.cons_append, containsL, Bool.or_eq_true]
    cases h with
    | inl h => exact Or.inl (by simpa using startsWithL_append_left n (c :: cs) b h)
    | inr h => exact Or.inr (containsL_append_left cs b n h)

theorem containsL_append_right : ∀ (a b n : List Char),
    containsL b n = true → containsL (a ++ b) n = true
  | [], _, _, h => h
  | c :: cs, b, n, h => by
    simp only [List.cons_append, containsL, Bool.or_eq_true]
    exact Or.inr (containsL_append_right cs b n h)

/-- `rstripSemi` is a prefix of its argument, the dropped tail being all
semicolons. -/
theorem rstripSemi_decomp : ∀ (s : List Char),
    ∃ t, s = rstripSemi s ++ t ∧ ∀ c, c ∈ t → c = ';'
  | [] => ⟨[], rfl, by intro c hc; exact absurd hc (by simp)⟩
  | c :: cs => by
    obtain ⟨t, ht, hsemi⟩ := rstripSemi_decomp cs
    cases hr : rstripSemi cs with
    | nil =>
      rw [hr] at ht
      simp only [List.nil_append] at ht
      by_cases hcsemi : c = ';'
      · refine ⟨c :: t, ?_, ?_⟩
        · simp [rstripSemi, hr, hcsemi, ← ht]
        · intro a ha
          rcases List.mem_cons.mp ha with h1 | h2
          · rw [h1]; exact hcsemi
          · exact hsemi a h2
      · refine ⟨t, ?_, hsemi⟩
        have hcb : (c == ';') = false := by
          cases hcb : c == ';'
          · rfl
          · exact absurd (by simpa using hcb) hcsemi
        simp [rstripSemi, hr, hcb, ← ht]
    | cons d ds =>
      refine ⟨t, ?_, hsemi⟩
      have hstep : rstripSemi (c :: cs) = c :: d :: ds := by
        simp [rstripSemi, hr]
      rw [hstep, ← hr, List.cons_append, ← ht]

/-- Upper-casing and appending an all-semicolon tail cannot create a
prefix made of non-semicolon characters: the prefix must already be there. -/
theorem startsWithL_upper_strip : ∀ (p s t : List Char),
    (∀ c, c ∈ p → ¬ c = ';') → (∀ c, c ∈ t → c = ';') →
    startsWithL p (upperL (s ++ t)) = true → startsWithL p (upperL s) = true
  | [], _, _, _, _, _ => rfl
  | q :: qs, [], t, hp, ht, h => by
    exfalso
    cases t with
    | nil => simp [upperL, startsWithL] at h
    | cons c cs =>
      have hc : c = ';' := ht c (List.mem_cons_self ..)
      simp only [List.nil_append, hc, upperL, List.map_cons, startsWithL,
        Bool.and_eq_true, beq_iff_eq] at h
      exact hp q (List.mem_cons_self ..) (by simpa using h.1)
  | q :: qs, c :: cs, t, hp, ht, h => by
    simp only [List.cons_append, upperL, List.map_cons, startsWithL,
      Bool.and_eq_true] at h ⊢
    refine ⟨h.1, ?_⟩
    exact startsWithL_upper_strip qs cs t
      (fun a ha => hp a (List.mem_cons_of_mem _ ha)) ht h.2

/-- The validator preserves the SELECT prefix when it appends the default
cap: stripping trailing semicolons cannot remove any of the six leading
characters. -/
theorem startsSelect_rstrip (sql : List Char) (h : startsSelect sql = true) :
    startsSelect (rstripSemi sql) = true := by
  obtain ⟨t, ht, hsemi⟩ := rstripSemi_decomp sql
  rw [ht] at h
  exact startsWithL_upper_strip selU (rstripSemi sql) t (by decide) hsemi h

/-- Every accepted-and-capped or passed-through candidate starts with
SELECT (case-insensitively) and satisfies: no aggregate keyword implies an
explicit LIMIT keyword. -/
theorem validate_sql_sound (sql out : List Char) (h : validate_sql sql = some out) :
    startsSelect out = true ∧ (hasAggKw out = false → hasLimitKw out = true) := by
  unfold validate_sql at h
  by_cases hsel : startsSelect sql = true
  · rw [hsel] at h
    simp only [Bool.not_true, Bool.false_eq_true, if_false] at h
    by_cases hcap : (!hasLimitKw sql && !hasAggKw sql) = true
    · rw [if_pos hcap] at h
      have hout : out = rstripSemi sql ++ limitSuffix := (Option.some.inj h).symm
      constructor
      · rw [hout]
        unfold startsSelect upperL
        rw [List.map_append]
        exact startsWithL_append_left _ _ _ (startsSelect_rstrip sql hsel)
      · intro _
        rw [hout]
        unfold hasLimitKw upperL
        rw [List.map_append]
        exact containsL_append_right _ _ _ (by decide)
    · rw [if_neg hcap] at h
      have hout : out = sql := (Option.some.inj h).symm
      subst hout
      refine ⟨hsel, ?_⟩
      intro hagg
      cases hlim : hasLimitKw out
      · exact absurd (by simp [hlim, hagg]) hcap
      · rfl
  · exfalso
    have : startsSelect sql = false := by
      cases hx : startsSelect sql
      · rfl
      · exact absurd hx hsel
    rw [this] at h
    simp at h

/-! ### Claim C4 -/

/-- C4: for every accepted candidate (starting with SELECT after the
pipeline's trimming) with no aggregate-function call and no LIMIT keyword,
the validator returns the candidate (trailing semicolons stripped) with
` LIMIT 100;` appended — a default cap of exactly 100 rows; a candidate
that already has an aggregate call or a LIMIT is passed through unchanged. -/
theorem c4_default_cap (sql : List Char) (hsel : startsSelect sql = true) :
    (hasLimitKw sql = false → hasAggKw sql = false →
      validate_sql sql = some (rstripSemi sql ++ " LIMIT 100;".data))
  ∧ (hasLimitKw sql = true ∨ hasAggKw sql = true →
      validate_sql sql = some sql) := by
  constructor
  · intro hlim hagg
    unfold validate_sql
    rw [hsel]
    simp [hlim, hagg, limitSuffix]
  · intro h
    unfold validate_sql
    rw [hsel]
    have : (!hasLimitKw sql && !hasAggKw sql) = false := by
      rcases h with h | h <;> simp [h]
    simp [this]

/-- Witness for C4: `select name from products` has neither an aggregate
call nor a limit, so the validator appends the 100-row cap. -/
theorem c4_default_cap_witness :
    validate_sql "select name from products".data
      = some ("select name from products".data ++ " LIMIT 100;".data) :=
  (c4_default_cap "select name from products".data (by decide)).1 (by decide) (by decide)

/-! ### Claim C5 -/

/-- C5: any candidate that does not begin with SELECT (case-insensitively)
is rejected by the validator and becomes "no candidate": the Gemini path
returns `none` for any raw response whose cleaned first line fails the
SELECT check, so no such string is handed to the executor. -/
theorem c5_reject_non_select (sql : List Char) (h : startsSelect sql = false) :
    validate_sql sql = none
  ∧ ∀ (raw : String), clean_sql raw.data = sql →
      generate_sql_with_gemini true (Except.ok raw) = none := by
  constructor
  · unfold validate_sql
    rw [h]
    simp
  · intro raw hraw
    show (validate_sql (clean_sql raw.data)).map String.mk = none
    rw [hraw]
    unfold validate_sql
    rw [h]
    simp

/-- Witness for C5: a destructive non-SELECT statement is rejected. -/
theorem c5_reject_non_select_witness :
    validate_sql "DROP TABLE users".data = none
  ∧ generate_sql_with_gemini true (Except.ok "DROP TABLE users") = none :=
  ⟨(c5_reject_non_select "DROP TABLE users".data (by decide)).1,
   (c5_reject_non_select "DROP TABLE users".data (by decide)).2 "DROP TABLE users" (by decide)⟩

/-! ### Digit-run facts for the parameterized templates -/

theorem containsL_single_iff : ∀ (l : List Char) (c : Char), containsL l [c] = true ↔ c ∈ l
  | [], c => by simp [containsL, List.isEmpty]
  | d :: ds, c => by
    simp only [containsL, Bool.or_eq_true, startsWithL, Bool.and_eq_true, beq_iff_eq,
      List.mem_cons]
    constructor
    · rintro (⟨h1, _⟩ | h2)
      · exact Or.inl h1
      · exact Or.inr ((containsL_single_iff ds c).mp h2)
    · rintro (h1 | h2)
      · exact Or.inl ⟨h1, trivial⟩
      · exact Or.inr ((containsL_single_iff ds c).mpr h2)

theorem containsL_single_false_of (l : List Char) (c : Char) (h : c ∈ l → False) :
    containsL l [c] = false := by
  cases hv : containsL l [c]
  · rfl
  · exact absurd ((containsL_single_iff l c).mp hv) h

theorem rstripSemi_append_semi : ∀ (x : List Char), rstripSemi (x ++ [';']) = rstripSemi x
  | [] => rfl
  | c :: cs => by
    show (match rstripSemi (cs ++ [';']) with
      | [] => if c == ';' then [] else [c]
      | d :: ds => c :: d :: ds) = _
    rw [rstripSemi_append_semi cs]
    rfl

theorem rstripSemi_no_semi : ∀ (x : List Char), containsL x [';'] = false → rstripSemi x = x
  | [], _ => rfl
  | c :: cs, h => by
    have hmem : ¬ (';' ∈ c :: cs) := by
      intro hm
      rw [(containsL_single_iff _ _).mpr hm] at h
      exact absurd h (by simp)
    have hcs : containsL cs [';'] = false :=
      containsL_single_false_of cs ';' fun hm => hmem (List.mem_cons_of_mem _ hm)
    have hc : ¬ (c == ';') = true := by
      intro hb
      exact hmem (by simp [beq_iff_eq.mp hb])
    have ih := rstripSemi_no_semi cs hcs
    show (match rstripSemi cs with
      | [] => if c == ';' then [] else [c]
      | d :: ds => c :: d :: ds) = c :: cs
    rw [ih]
    cases cs with
    | nil => simp [hc]
    | cons d ds => rfl

theorem spaceThenDigits_digits (rest ds : List Char) (h : spaceThenDigits rest = some ds) :
    ds.all Char.isDigit = true := by
  unfold spaceThenDigits at h
  split at h
  · rw [← Option.some.inj h]
    exact all_takeWhile _ _
  · exact absurd h (by simp)

theorem underHere_digits (s ds : List Char) (h : underHere s = some ds) :
    ds.all Char.isDigit = true := by
  unfold underHere at h
  cases hl : litTake "under".data s with
  | none => rw [hl] at h; exact absurd h (by simp)
  | some rest => rw [hl] at h; exact spaceThenDigits_digits rest ds h

theorem aboveOverHere_digits (s ds : List Char) (h : aboveOverHere s = some ds) :
    ds.all Char.isDigit = true := by
  unfold aboveOverHere at h
  cases hl : (match litTake "above".data s with
    | some rest => some rest
    | none => litTake "over".data s) with
  | none => rw [hl] at h; exact absurd h (by simp)
  | some rest => rw [hl] at h; exact spaceThenDigits_digits rest ds h

theorem scanUnder_digits : ∀ (s : List Char) (prevW : Bool) (ds : List Char),
    scanUnder prevW s = some ds → ds.all Char.isDigit = true := by
  intro s
  induction s with
  | nil => intro prevW ds h; exact absurd h (by simp [scanUnder])
  | cons c cs ih =>
    intro prevW ds h
    rw [scanUnder] at h
    cases hx : (if prevW then none else underHere (c :: cs)) with
    | none => rw [hx] at h; exact ih _ ds h
    | some ds0 =>
      rw [hx] at h
      rw [← Option.some.inj h]
      cases prevW
      · simp only [Bool.false_eq_true, if_false] at hx
        exact underHere_digits _ ds0 hx
      · exact absurd hx (by simp)

theorem scanAboveOver_digits : ∀ (s : List Char) (prevW : Bool) (ds : List Char),
    scanAboveOver prevW s = some ds → ds.all Char.isDigit = true := by
  intro s
  induction s with
  | nil => intro prevW ds h; exact absurd h (by simp [scanAboveOver])
  | cons c cs ih =>
    intro prevW ds h
    rw [scanAboveOver] at h
    cases hx : (if prevW then none else aboveOverHere (c :: cs)) with
    | none => rw [hx] at h; exact ih _ ds h
    | some ds0 =>
      rw [hx] at h
      rw [← Option.some.inj h]
      cases prevW
      · simp only [Bool.false_eq_true, if_false] at hx
        exact aboveOverHere_digits _ ds0 hx
      · exact absurd hx (by simp)

theorem getLimitL_digits (q : List Char) : (getLimitL q).all Char.isDigit = true := by
  unfold getLimitL
  cases h : boundedDigitScan false q with
  | none => decide
  | some ds =>
    simp only [Option.getD_some]
    exact (boundedDigitScan_sound q false ds h).2.1

/-- Shape facts about a rule output of the form
`pre ++ digits ++ (sufBody ++ [semicolon])`: it starts with SELECT, keeps a
LIMIT keyword, and contains no semicolon besides the trailing one. -/
theorem ruleOut_sound (pre mid sufBody : List Char)
    (hse : startsWithL selU (upperL pre) = true)
    (hlim : containsL (upperL pre) "LIMIT".data = true
          ∨ containsL (upperL sufBody) "LIMIT".data = true)
    (hpre : ';' ∈ pre → False) (hsuf : ';' ∈ sufBody → False)
    (hmid : mid.all Char.isDigit = true) :
    startsSelect (pre ++ mid ++ (sufBody ++ [';'])) = true
  ∧ hasLimitKw (pre ++ mid ++ (sufBody ++ [';'])) = true
  ∧ containsL (rstripSemi (pre ++ mid ++ (sufBody ++ [';']))) [';'] = false := by
  have hmidsemi : ';' ∈ mid → False := by
    intro hm
    have := List.all_eq_true.mp hmid ';' hm
    exact absurd this (by decide)
  refine ⟨?_, ?_, ?_⟩
  · unfold startsSelect upperL
    rw [List.map_append, List.map_append]
    rw [List.append_assoc]
    exact startsWithL_append_left _ _ _ hse
  · unfold hasLimitKw upperL
    rw [List.map_append, List.map_append]
    rcases hlim with hl | hl
    · rw [List.append_assoc]
      exact containsL_append_left _ _ _ hl
    · refine containsL_append_right _ _ _ ?_
      rw [List.map_append]
      exact containsL_append_left _ _ _ hl
  · have hassoc : pre ++ mid ++ (sufBody ++ [';']) = (pre ++ mid ++ sufBody) ++ [';'] := by
      simp [List.append_assoc]
    rw [hassoc, rstripSemi_append_semi]
    have hnos : containsL (pre ++ mid ++ sufBody) [';'] = false := by
      refine containsL_single_false_of _ _ ?_
      intro hm
      rcases List.mem_append.mp hm with hm2 | hm2
      · rcases List.mem_append.mp hm2 with hm3 | hm3
        · exact hpre hm3
        · exact hmidsemi hm3
      · exact hsuf hm2
    rw [rstripSemi_no_semi _ hnos]
    exact hnos

/-- The output-shape property, for a template with no parameters. -/
theorem fixedP (t : String) (h1 : startsSelect t.data = true)
    (h2 : containsL (rstripSemi t.data) [';'] = false)
    (h3 : t ≠ tmpl1 → t ≠ tmpl2 → hasAggKw t.data = false → hasLimitKw t.data = true) :
    startsSelect t.data = true
  ∧ containsL (rstripSemi t.data) [';'] = false
  ∧ (t ≠ tmpl1 → t ≠ tmpl2 → hasAggKw t.data = false → hasLimitKw t.data = true) :=
  ⟨h1, h2, h3⟩

/-- The output-shape property, for a template that always carries LIMIT. -/
theorem paramP (t : String) (h1 : startsSelect t.data = true)
    (h2 : containsL (rstripSemi t.data) [';'] = false)
    (h3 : hasLimitKw t.data = true) :
    startsSelect t.data = true
  ∧ containsL (rstripSemi t.data) [';'] = false
  ∧ (t ≠ tmpl1 → t ≠ tmpl2 → hasAggKw t.data = false → hasLimitKw t.data = true) :=
  ⟨h1, h2, fun _ _ _ => h3⟩

/-- Every query produced by the pattern translator starts with SELECT, has
no interior semicolon (single statement), and — except for the two
sqlite_master templates — contains an aggregate keyword or a LIMIT. -/
theorem pattern_output_sound (q s : String)
    (h : generate_sql_from_pattern q = some s) :
    startsSelect s.data = true
  ∧ containsL (rstripSemi s.data) [';'] = false
  ∧ (s ≠ tmpl1 → s ≠ tmpl2 → hasAggKw s.data = false → hasLimitKw s.data = true) := by
  rw [generate_sql_from_pattern_eq] at h
  obtain ⟨r, hmem, hpred, htm⟩ := applyRules_mem _ _ _ h
  subst htm
  simp only [patternRules, List.mem_cons, List.not_mem_nil, or_false] at hmem
  rcases hmem with rfl | rfl | rfl | rfl | rfl | rfl | rfl | rfl | rfl | rfl | rfl | rfl |
    rfl | rfl | rfl | rfl | rfl | rfl | rfl | rfl | rfl | rfl | rfl | rfl | rfl | rfl |
    rfl | rfl | rfl
  · exact fixedP tmpl1 (by decide) (by decide) (by decide)
  · exact fixedP tmpl2 (by decide) (by decide) (by decide)
  · exact fixedP tmpl3 (by decide) (by decide) (by decide)
  · exact fixedP tmpl4 (by decide) (by decide) (by decide)
  · have hfacts := ruleOut_sound
      "SELECT name, price, brand, category, rating FROM products ORDER BY price DESC LIMIT ".data
      (getLimitL (trimL (lowerL q.data))) []
      (by decide) (Or.inl (by decide)) (by decide) (by simp) (getLimitL_digits _)
    exact paramP (tmpl5 (getLimitL (trimL (lowerL q.data)))) hfacts.1 hfacts.2.2 hfacts.2.1
  · have hfacts := ruleOut_sound
      "SELECT name, price, brand, category, rating FROM products ORDER BY price ASC LIMIT ".data
      (getLimitL (trimL (lowerL q.data))) []
      (by decide) (Or.inl (by decide)) (by decide) (by simp) (getLimitL_digits _)
    exact paramP (tmpl6 (getLimitL (trimL (lowerL q.data)))) hfacts.1 hfacts.2.2 hfacts.2.1
  · have hfacts := ruleOut_sound
      "SELECT name, rating, price, brand, category FROM products ORDER BY rating DESC LIMIT ".data
      (getLimitL (trimL (lowerL q.data))) []
      (by decide) (Or.inl (by decide)) (by decide) (by simp) (getLimitL_digits _)
    exact paramP (tmpl7 (getLimitL (trimL (lowerL q.data)))) hfacts.1 hfacts.2.2 hfacts.2.1
  · exact fixedP tmpl8 (by decide) (by decide) (by decide)
  · obtain ⟨ds, hds⟩ := Option.isSome_iff_exists.mp hpred
    have hdig : ds.all Char.isDigit = true := scanUnder_digits _ _ _ hds
    have hfacts := ruleOut_sound
      "SELECT name, price, brand, rating FROM products WHERE price < ".data
      ds " ORDER BY price DESC LIMIT 100".data
      (by decide) (Or.inr (by decide)) (by decide) (by decide) hdig
    have hgd : (scanUnder false (trimL (lowerL q.data))).getD [] = ds := by
      rw [hds]
      rfl
    simpa [hgd] using paramP (tmpl9 ds) hfacts.1 hfacts.2.2 hfacts.2.1
  · obtain ⟨ds, hds⟩ := Option.isSome_iff_exists.mp hpred
    have hdig : ds.all Char.isDigit = true := scanAboveOver_digits _ _ _ hds
    have hfacts := ruleOut_sound
      "SELECT name, price, brand, rating FROM products WHERE price > ".data
      ds " ORDER BY price ASC LIMIT 100".data
      (by decide) (Or.inr (by decide)) (by decide) (by decide) hdig
    have hgd : (scanAboveOver false (trimL (lowerL q.data))).getD [] = ds := by
      rw [hds]
      rfl
    simpa [hgd] using paramP (tmpl10 ds) hfacts.1 hfacts.2.2 hfacts.2.1
  · exact fixedP tmpl11 (by decide) (by decide) (by decide)
  · exact fixedP tmpl12 (by decide) (by decide) (by decide)
  · exact fixedP tmpl13 (by decide) (by decide) (by decide)
  · exact fixedP tmpl14 (by decide) (by decide) (by decide)
  · have hfacts := ruleOut_sound
      "SELECT o.id, o.user_id, u.username, o.total, o.status, o.created_at FROM orders o LEFT JOIN users u ON o.user_id = u.id ORDER BY o.created_at DESC LIMIT ".data
      (getLimitL (trimL (lowerL q.data))) []
      (by decide) (Or.inl (by decide)) (by decide) (by simp) (getLimitL_digits _)
    exact paramP (tmpl15 (getLimitL (trimL (lowerL q.data)))) hfacts.1 hfacts.2.2 hfacts.2.1
  · exact fixedP tmpl16 (by decide) (by decide) (by decide)
  · exact fixedP tmpl17 (by decide) (by decide) (by decide)
  · exact fixedP tmpl18 (by decide) (by decide) (by decide)
  · exact fixedP tmpl19 (by decide) (by decide) (by decide)
  · exact fixedP (brandTmpl "nike".data) (by decide) (by decide) (by decide)
  · exact fixedP (brandTmpl "adidas".data) (by decide) (by decide) (by decide)
  · exact fixedP (brandTmpl "puma".data) (by decide) (by decide) (by decide)
  · exact fixedP (brandTmpl "zara".data) (by decide) (by decide) (by decide)
  · exact fixedP (brandTmpl "h&m".data) (by decide) (by decide) (by decide)
  · exact fixedP (brandTmpl "levis".data) (by decide) (by decide) (by decide)
  · exact fixedP (catTmpl "men".data) (by decide) (by decide) (by decide)
  · exact fixedP (catTmpl "women".data) (by decide) (by decide) (by decide)
  · exact fixedP (catTmpl "kids".data) (by decide) (by decide) (by decide)
  · exact fixedP (catTmpl "accessories".data) (by decide) (by decide) (by decide)

/-! ### Claim C3 -/

/-- Counterexample to C3: the question `show tables` fires rule 1, whose
query `SELECT name FROM sqlite_master ...` is executed (the endpoint
returns success for it) although it contains neither an aggregate keyword
nor a row-count limit — violating the claimed invariant for candidates
that reach execution.  Moreover the validator accepts a candidate that is
not a single statement, so that part of the invariant also fails on the
AI path. -/
theorem c3_counterexample :
    api_database_query false true "show tables" (Except.error "timeout") execOk
      = ApiResponse.success "show tables" tmpl1
          "🔍 Query generated by pattern matching. Found 0 results." [] 0 [] "pattern"
  ∧ hasAggKw tmpl1.data = false
  ∧ hasLimitKw tmpl1.data = false
  ∧ generate_sql_with_gemini true (Except.ok "SELECT 1; DROP TABLE users")
      = some "SELECT 1; DROP TABLE users LIMIT 100;" :=
  ⟨by decide, by decide, by decide, by decide⟩

/-- C3 amended: every candidate that reaches execution starts with SELECT
(case-insensitively).  AI-produced candidates additionally satisfy
"no aggregate keyword implies an explicit LIMIT"; rule-produced candidates
are single statements (no interior semicolon) and satisfy the same
aggregate-or-limit property except for the two sqlite_master templates
(rules 1 and 2), which contain neither an aggregate nor a limit. -/
theorem c3_amended :
    (∀ (raw s : String),
        generate_sql_with_gemini true (Except.ok raw) = some s →
        startsSelect s.data = true ∧ (hasAggKw s.data = false → hasLimitKw s.data = true))
  ∧ (∀ (q s : String), generate_sql_from_pattern q = some s →
        startsSelect s.data = true
      ∧ containsL (rstripSemi s.data) [';'] = false
      ∧ (s ≠ tmpl1 → s ≠ tmpl2 → hasAggKw s.data = false → hasLimitKw s.data = true))
  ∧ (hasAggKw tmpl1.data = false ∧ hasLimitKw tmpl1.data = false
      ∧ hasAggKw tmpl2.data = false ∧ hasLimitKw tmpl2.data = false) := by
  refine ⟨?_, pattern_output_sound, by decide, by decide, by decide, by decide⟩
  intro raw s h
  have h2 : (validate_sql (clean_sql raw.data)).map String.mk = some s := h
  obtain ⟨out, hval, hmk⟩ := Option.map_eq_some'.mp h2
  subst hmk
  exact validate_sql_sound _ _ hval

/-- Witness for C3 amended: a capped AI candidate starts with SELECT and
carries the appended LIMIT. -/
theorem c3_amended_witness :
    startsSelect "SELECT * FROM products LIMIT 100;".data = true
  ∧ (hasAggKw "SELECT * FROM products LIMIT 100;".data = false →
      hasLimitKw "SELECT * FROM products LIMIT 100;".data = true) :=
  c3_amended.1 "SELECT * FROM products" "SELECT * FROM products LIMIT 100;" (by decide)

/-! ### Endpoint evaluation helper -/

/-- Evaluation of the endpoint once the question is non-empty and the
database is connected. -/
theorem api_run (enabled : Bool) (question : String) (aiRaw : Except String String)
    (exec : String → Except String QueryResult)
    (hq : String.mk (trimL question.data) ≠ "") :
    api_database_query enabled true question aiRaw exec =
      match chosenSql enabled (String.mk (trimL question.data)) aiRaw with
      | none =>
        ApiResponse.failure 400
          "Could not understand your question. Try: 'Show top 10 expensive products' or 'Count all users'"
          none
      | some (sql, src) =>
        match exec sql with
        | Except.ok r =>
          ApiResponse.success (String.mk (trimL question.data)) sql
            (explanationFor src r.rows.length) r.rows r.rows.length r.columns src
        | Except.error e =>
          ApiResponse.failure 400 ("Query execution error: " ++ e)
            (some "Try rephrasing your question or check the SQL syntax.") := by
  show (if String.mk (trimL question.data) = "" then
      ApiResponse.failure 400 "Please provide a question" none
    else if !true then ApiResponse.failure 500 "Database not connected" none
    else _) = _
  rw [if_neg hq]
  rfl

/-! ### Claim C6 -/

/-- C6: an exception in the external AI call is converted to "no
candidate" and never surfaces: the response with the failing AI call is
identical to the response with the AI translator disabled, and (for a
non-empty question and a storage engine that accepts the query) it is
either a success carrying the rule-path provenance tag or the no-candidate
400 error. -/
theorem c6_ai_failure_swallowed (question err : String)
    (exec : String → Except String QueryResult) :
    api_database_query true true question (Except.error err) exec
      = api_database_query false true question (Except.error err) exec
  ∧ (String.mk (trimL question.data) ≠ "" →
      (∀ s, ∃ r, exec s = Except.ok r) →
      ((∃ sql res cols,
          api_database_query true true question (Except.error err) exec
            = ApiResponse.success (String.mk (trimL question.data)) sql
                (explanationFor "pattern" res.length) res res.length cols "pattern")
       ∨ api_database_query true true question (Except.error err) exec
          = ApiResponse.failure 400
              "Could not understand your question. Try: 'Show top 10 expensive products' or 'Count all users'"
              none)) := by
  constructor
  · rfl
  · intro hq hex
    rw [api_run true question (Except.error err) exec hq]
    split
    · exact Or.inr rfl
    · rename_i sql src hsome
      have hgem : generate_sql_with_gemini true (Except.error err) = none := rfl
      unfold chosenSql at hsome
      rw [hgem] at hsome
      cases hpat : generate_sql_from_pattern (String.mk (trimL question.data)) with
      | none =>
        rw [hpat] at hsome
        exact absurd hsome (by simp)
      | some s =>
        rw [hpat] at hsome
        have hpair : (s, "pattern") = (sql, src) := Option.some.inj hsome
        have hsrc : src = "pattern" := (congrArg Prod.snd hpair).symm
        obtain ⟨r, hr⟩ := hex sql
        rw [hr]
        refine Or.inl ⟨sql, r.rows, r.columns, ?_⟩
        rw [hsrc]

/-- Witness for C6: with a timing-out AI call and the question
`show tables`, the response equals the rules-only response and is a
success tagged `pattern`. -/
theorem c6_ai_failure_swallowed_witness :
    api_database_query true true "show tables" (Except.error "Timeout") execOk
      = api_database_query false true "show tables" (Except.error "Timeout") execOk
  ∧ ((∃ sql res cols,
        api_database_query true true "show tables" (Except.error "Timeout") execOk
          = ApiResponse.success (String.mk (trimL "show tables".data)) sql
              (explanationFor "pattern" res.length) res res.length cols "pattern")
     ∨ api_database_query true true "show tables" (Except.error "Timeout") execOk
        = ApiResponse.failure 400
            "Could not understand your question. Try: 'Show top 10 expensive products' or 'Count all users'"
            none) :=
  ⟨(c6_ai_failure_swallowed "show tables" "Timeout" execOk).1,
   (c6_ai_failure_swallowed "show tables" "Timeout" execOk).2 (by decide)
     (fun _ => ⟨⟨[], []⟩, rfl⟩)⟩

/-! ### Claim C7 -/

/-- Counterexample to C7: successful responses carry the provenance values
`"gemini"` and `"pattern"`, not `"ai"` and `"rule"` as the claim states. -/
theorem c7_counterexample :
    api_database_query true true "show all users"
        (Except.ok "SELECT * FROM users LIMIT 5") execOk
      = ApiResponse.success "show all users" "SELECT * FROM users LIMIT 5"
          "✨ Query generated by Gemini AI. Found 0 results." [] 0 [] "gemini"
  ∧ ("gemini" : String) ≠ "ai"
  ∧ api_database_query false true "show tables" (Except.error "e") execOk
      = ApiResponse.success "show tables" tmpl1
          "🔍 Query generated by pattern matching. Found 0 results." [] 0 [] "pattern"
  ∧ ("pattern" : String) ≠ "rule" :=
  ⟨by decide, by decide, by decide, by decide⟩

/-- C7 amended: every successful response of the endpoint carries the
eight fields (question, sql_query, explanation, results, row_count,
columns, source, plus the success status encoded by the constructor), and
the provenance field is `"gemini"` exactly when the AI translator produced
the executed query and `"pattern"` exactly when the rule-based translator
produced it; the question field is the trimmed input. -/
theorem c7_amended (enabled : Bool) (question : String) (aiRaw : Except String String)
    (exec : String → Except String QueryResult)
    (qf sql expl : String) (res : List (List (String × String))) (rc : Nat)
    (cols : List String) (src : String)
    (h : api_database_query enabled true question aiRaw exec
          = ApiResponse.success qf sql expl res rc cols src) :
    (src = "gemini" ∨ src = "pattern")
  ∧ (src = "gemini" → generate_sql_with_gemini enabled aiRaw = some sql)
  ∧ (src = "pattern" → generate_sql_with_gemini enabled aiRaw = none
        ∧ generate_sql_from_pattern qf = some sql)
  ∧ qf = String.mk (trimL question.data) := by
  by_cases hq : String.mk (trimL question.data) = ""
  · exfalso
    have hfail : api_database_query enabled true question aiRaw exec
        = ApiResponse.failure 400 "Please provide a question" none := by
      show (if String.mk (trimL question.data) = "" then
          ApiResponse.failure 400 "Please provide a question" none
        else _) = _
      rw [if_pos hq]
    rw [hfail] at h
    exact ApiResponse.noConfusion h
  · rw [api_run enabled question aiRaw exec hq] at h
    split at h
    · exact absurd h (by simp)
    · rename_i sql0 src0 hcs
      split at h
      · rename_i r hex
        simp only [ApiResponse.success.injEq] at h
        obtain ⟨hqf, hsql, _, _, _, _, hsrc⟩ := h
        unfold chosenSql at hcs
        cases hg : generate_sql_with_gemini enabled aiRaw with
        | some s =>
          rw [hg] at hcs
          have hpair : (s, "gemini") = (sql0, src0) := Option.some.inj hcs
          have h1 : sql0 = s := (congrArg Prod.fst hpair).symm
          have h2 : src0 = "gemini" := (congrArg Prod.snd hpair).symm
          refine ⟨Or.inl (by rw [← hsrc, h2]), ?_, ?_, hqf.symm⟩
          · intro _
            exact congrArg some (h1.symm.trans hsql)
          · intro hpat
            rw [← hsrc, h2] at hpat
            exact absurd hpat (by decide)
        | none =>
          rw [hg] at hcs
          cases hp : generate_sql_from_pattern (String.mk (trimL question.data)) with
          | none =>
            rw [hp] at hcs
            exact absurd hcs (by simp)
          | some s =>
            rw [hp] at hcs
            have hpair : (s, "pattern") = (sql0, src0) := Option.some.inj hcs
            have h1 : sql0 = s := (congrArg Prod.fst hpair).symm
            have h2 : src0 = "pattern" := (congrArg Prod.snd hpair).symm
            refine ⟨Or.inr (by rw [← hsrc, h2]), ?_, ?_, hqf.symm⟩
            · intro hgem
              rw [← hsrc, h2] at hgem
              exact absurd hgem (by decide)
            · refine fun _ => ⟨rfl, ?_⟩
              have hgen : generate_sql_from_pattern qf = some s := hqf ▸ hp
              exact hgen.trans (congrArg some (h1.symm.trans hsql))
      · exact absurd h (by simp)

/-- Witness for C7 amended, at a concrete rule-path success. -/
theorem c7_amended_witness :
    (("pattern" : String) = "gemini" ∨ ("pattern" : String) = "pattern")
  ∧ (("pattern" : String) = "gemini" →
      generate_sql_with_gemini false (Except.error "x") = some tmpl1)
  ∧ (("pattern" : String) = "pattern" →
      generate_sql_with_gemini false (Except.error "x") = none
        ∧ generate_sql_from_pattern "show tables" = some tmpl1)
  ∧ ("show tables" : String) = String.mk (trimL "show tables".data) :=
  c7_amended false "show tables" (Except.error "x") execOk "show tables" tmpl1
    "🔍 Query generated by pattern matching. Found 0 results." [] 0 [] "pattern"
    (by decide)

/-! ### Claim C9 -/

/-- C9: when the storage engine rejects the chosen query, the endpoint
reports a 400 error whose message embeds the engine's raw diagnostic
verbatim (as a substring), together with the rephrase suggestion — the
execution failure is not swallowed. -/
theorem c9_execution_error (enabled : Bool) (question : String)
    (aiRaw : Except String String) (exec : String → Except String QueryResult)
    (sql src errMsg : String)
    (hq : String.mk (trimL question.data) ≠ "")
    (hsel : chosenSql enabled (String.mk (trimL question.data)) aiRaw = some (sql, src))
    (hexec : exec sql = Except.error errMsg) :
    api_database_query enabled true question aiRaw exec
      = ApiResponse.failure 400 ("Query execution error: " ++ errMsg)
          (some "Try rephrasing your question or check the SQL syntax.")
  ∧ containsL ("Query execution error: " ++ errMsg).data errMsg.data = true := by
  constructor
  · rw [api_run enabled question aiRaw exec hq, hsel]
    show (match exec sql with
      | Except.ok r =>
        ApiResponse.success (String.mk (trimL question.data)) sql
          (explanationFor src r.rows.length) r.rows r.rows.length r.columns src
      | Except.error e =>
        ApiResponse.failure 400 ("Query execution error: " ++ e)
          (some "Try rephrasing your question or check the SQL syntax.")) = _
    rw [hexec]
  · have hdata : ("Query execution error: " ++ errMsg).data
        = "Query execution error: ".data ++ errMsg.data := rfl
    rw [hdata]
    exact containsL_append_right _ _ _
      (containsL_of_startsWithL _ _ (startsWithL_refl _))

/-- Witness for C9: a failing engine on the rule-path query for
`show tables` produces the 400 diagnostic response. -/
theorem c9_execution_error_witness :
    api_database_query false true "show tables" (Except.error "") execFail
      = ApiResponse.failure 400 ("Query execution error: " ++ "no such column: foo")
          (some "Try rephrasing your question or check the SQL syntax.")
  ∧ containsL ("Query execution error: " ++ "no such column: foo").data
      "no such column: foo".data = true :=
  c9_execution_error false "show tables" (Except.error "") execFail
    tmpl1 "pattern" "no such column: foo" (by decide) (by decide) rfl

/-! ### Claim C10 -/

theorem startsWithL_iff_exists : ∀ (n hay : List Char),
    startsWithL n hay = true ↔ ∃ t, hay = n ++ t
  | [], hay => by simp [startsWithL]
  | c :: cs, [] => by simp [startsWithL]
  | c :: cs, d :: ds => by
    simp only [startsWithL, Bool.and_eq_true, beq_iff_eq]
    constructor
    · rintro ⟨rfl, h2⟩
      obtain ⟨t, rfl⟩ := (startsWithL_iff_exists cs ds).mp h2
      exact ⟨t, rfl⟩
    · rintro ⟨t, ht⟩
      have h1 : d = c := by
        have := congrArg (fun l => l.head?) ht
        simpa using this
      have h2 : ds = cs ++ t := by
        have := congrArg List.tail ht
        simpa using this
      exact ⟨h1.symm, (startsWithL_iff_exists cs ds).mpr ⟨t, h2⟩⟩

theorem containsL_iff_exists : ∀ (hay n : List Char),
    containsL hay n = true ↔ ∃ a b, hay = a ++ n ++ b
  | [], n => by
    simp only [containsL, List.isEmpty_iff]
    constructor
    · rintro rfl
      exact ⟨[], [], rfl⟩
    · rintro ⟨a, b, hab⟩
      rcases a with _ | _
      · rcases n with _ | _
        · rfl
        · exact absurd hab (by simp)
      · exact absurd hab (by simp)
  | c :: cs, n => by
    simp only [containsL, Bool.or_eq_true]
    constructor
    · rintro (h | h)
      · obtain ⟨t, ht⟩ := (startsWithL_iff_exists n (c :: cs)).mp h
        exact ⟨[], t, by simp [ht]⟩
      · obtain ⟨a, b, hab⟩ := (containsL_iff_exists cs n).mp h
        exact ⟨c :: a, b, by simp [hab]⟩
    · rintro ⟨a, b, hab⟩
      rcases a with _ | ⟨a0, arest⟩
      · refine Or.inl ((startsWithL_iff_exists n (c :: cs)).mpr ⟨b, by simpa using hab⟩)
      · have h2 : cs = arest ++ n ++ b := by
          have := congrArg List.tail hab
          simpa using this
        exact Or.inr ((containsL_iff_exists cs n).mpr ⟨arest, b, h2⟩)

/-- A question containing `women` also contains `men` for the substring
check of line 451. -/
theorem containsL_men_of_women (q : List Char)
    (h : containsL q "women".data = true) : containsL q "men".data = true := by
  obtain ⟨a, b, hab⟩ := (containsL_iff_exists q "women".data).mp h
  refine (containsL_iff_exists q "men".data).mpr ⟨a ++ "wo".data, b, ?_⟩
  rw [hab]
  simp

/-- C10: for every question matching no rule before the category-literal
loop, if the normalized question contains `women` then the translator
returns the `men` filter query: the loop checks `men` first, by substring
containment, and `men` occurs inside `women`. -/
theorem c10_women_maps_to_men (question : String)
    (hearly : ∀ j, (hj : j < 25) →
        (patternRules.get ⟨j, Nat.lt_trans hj (by decide)⟩).pred
          (trimL (lowerL question.data)) = false)
    (hwomen : containsL (trimL (lowerL question.data)) "women".data = true) :
    generate_sql_from_pattern question = some (catTmpl "men".data) := by
  rw [generate_sql_from_pattern_eq]
  have hmen : containsL (trimL (lowerL question.data)) "men".data = true :=
    containsL_men_of_women _ hwomen
  exact applyRules_first patternRules (trimL (lowerL question.data)) 25 (by decide)
    hmen hearly

/-- Witness for C10: the bare question `women` returns the `men`-category
query. -/
theorem c10_women_maps_to_men_witness :
    generate_sql_from_pattern "women" = some (catTmpl "men".data) :=
  c10_women_maps_to_men "women" (by decide) (by decide)

end SqlChatbot
